import Mathlib

/-!
Shallow embedding of the imagineanything python SDK, covering the OAuth token
manager (`auth.py`), the HTTP client response handling (`client.py`), and the
content-length validation of the posting facade (`agent.py`).

Real time is modelled by an explicit `now : Int` (seconds); the token endpoint
is modelled as a stream of responses `Env`, the i-th HTTP POST to the token
endpoint receiving response `env.resp i`.  Python exceptions are modelled by
`Except SDKError`.
-/

namespace ImagineAnything

/-- `MAX_POST_LENGTH` from constants.py. -/
def MAX_POST_LENGTH : Nat := 500

/-- `TokenManager.REFRESH_BUFFER = timedelta(minutes=5)`, in seconds. -/
def REFRESH_BUFFER : Int := 300

/-- `TokenInfo` dataclass from auth.py. -/
structure TokenInfo where
  access_token : String
  refresh_token : String
  expires_at : Int
  scope : String
deriving DecidableEq

/-- JSON body of a token-endpoint response, with optional fields as read by
`_handle_token_response` via `data.get`/`data[...]`. -/
structure TokenBody where
  access_token : Option String
  refresh_token : Option String
  expires_in : Option Int
  scope : Option String
  error : Option String
  error_description : Option String
  message : Option String
deriving DecidableEq

/-- A token-endpoint HTTP response: status code, parsed JSON body
(`none` when `response.json()` raises `ValueError`), and raw text. -/
structure HttpResponse where
  status_code : Nat
  body : Option TokenBody
  text : String
deriving DecidableEq

/-- JSON body of a generic API response, with the fields read by
`APIClient._raise_for_status`. -/
structure ApiBody where
  error : Option String
  message : Option String
  error_description : Option String
  retry_after : Option Int
deriving DecidableEq

/-- A generic API HTTP response. -/
structure ApiResponse where
  status_code : Nat
  body : Option ApiBody
  text : String
deriving DecidableEq

/-- The SDK exception hierarchy (exceptions.py), plus the uncaught python
exceptions (`ValueError`, `KeyError`) that `_handle_token_response` can let
escape on a malformed 200 token response. -/
inductive SDKError where
  | authenticationError (error description : String)
  | validationError (error message : String) (details : ApiBody)
  | forbiddenError (error message : String)
  | notFoundError (error message : String)
  | rateLimitError (error message : String) (retry_after : Option Int)
  | serverError (error message : String) (status_code : Nat)
  | apiError (error message : String) (status_code : Nat)
  | valueError
  | keyError (key : String)
deriving DecidableEq

/-- The mutable state plus configuration of a `TokenManager` instance. -/
structure TokenManager where
  client_id : String
  client_secret : String
  auto_refresh : Bool
  token_info : Option TokenInfo
deriving DecidableEq

/-- A request sent to the token endpoint: either the client-credentials grant
(`_acquire_token`) or the refresh-token grant (`_refresh_token`). -/
inductive TokenRequest where
  | clientCredentials (client_id client_secret : String)
  | refreshGrant (refresh_token : String)
deriving DecidableEq

/-- The token endpoint, as the stream of responses to successive calls. -/
structure Env where
  resp : Nat → HttpResponse

/-- `TokenManager._should_refresh`: needs-refresh iff auto-refresh is on, a
token is cached, and `utcnow() >= expires_at - REFRESH_BUFFER`. -/
def should_refresh (tm : TokenManager) (now : Int) : Bool :=
  if !tm.auto_refresh then false
  else
    match tm.token_info with
    | none => false
    | some ti => decide (ti.expires_at - REFRESH_BUFFER ≤ now)

/-- `TokenManager._handle_token_response`: on non-200, raise
`AuthenticationError` with fields from the body (or synthesized from the raw
text when the body does not parse); on 200, parse the new `TokenInfo` with
`expires_at = utcnow() + expires_in`. -/
def handle_token_response (resp : HttpResponse) (now : Int) :
    Except SDKError TokenInfo :=
  if resp.status_code ≠ 200 then
    match resp.body with
    | some data =>
        .error (.authenticationError (data.error.getD "unknown_error")
          (data.error_description.getD (data.message.getD "Authentication failed")))
    | none =>
        .error (.authenticationError "invalid_response"
          (if resp.text = "" then "Authentication failed" else resp.text))
  else
    match resp.body with
    | none => .error .valueError
    | some data =>
      match data.expires_in with
      | none => .error (.keyError "expires_in")
      | some ein =>
        match data.access_token with
        | none => .error (.keyError "access_token")
        | some tok =>
          .ok { access_token := tok
                refresh_token := data.refresh_token.getD ""
                expires_at := now + ein
                scope := data.scope.getD "read write" }

/-- Result of one internal token-manager step: the new manager state (or the
raised error, in which case the state is untouched, since the python exception
fires before any assignment) together with the token-endpoint requests made. -/
structure TokenStep where
  result : Except SDKError TokenManager
  calls : List TokenRequest

/-- `TokenManager._acquire_token`: one client-credentials POST, then
`_handle_token_response`. -/
def acquire_token (tm : TokenManager) (now : Int) (env : Env) (k : Nat) :
    TokenStep :=
  let req := TokenRequest.clientCredentials tm.client_id tm.client_secret
  match handle_token_response (env.resp k) now with
  | .ok ti => { result := .ok { tm with token_info := some ti }, calls := [req] }
  | .error e => { result := .error e, calls := [req] }

/-- `TokenManager._refresh_token`: with no cached token or an empty
refresh_token, fall through to `_acquire_token`; otherwise POST the
refresh grant, falling back to `_acquire_token` when its status is not 200. -/
def refresh_token (tm : TokenManager) (now : Int) (env : Env) (k : Nat) :
    TokenStep :=
  match tm.token_info with
  | none => acquire_token tm now env k
  | some ti =>
    if ti.refresh_token = "" then acquire_token tm now env k
    else if (env.resp k).status_code ≠ 200 then
      let step := acquire_token tm now env (k + 1)
      { result := step.result
        calls := TokenRequest.refreshGrant ti.refresh_token :: step.calls }
    else
      match handle_token_response (env.resp k) now with
      | .ok ti2 =>
          { result := .ok { tm with token_info := some ti2 }
            calls := [TokenRequest.refreshGrant ti.refresh_token] }
      | .error e =>
          { result := .error e
            calls := [TokenRequest.refreshGrant ti.refresh_token] }

/-- Result of `get_access_token`: the returned token string (or raised error),
the manager state afterwards, and the token-endpoint requests made. -/
structure GetTokenOut where
  result : Except SDKError String
  tm : TokenManager
  calls : List TokenRequest

/-- `TokenManager.get_access_token` (body of the locked critical section). -/
def get_access_token (tm : TokenManager) (now : Int) (env : Env) (k : Nat) :
    GetTokenOut :=
  let step :=
    match tm.token_info with
    | none => acquire_token tm now env k
    | some _ =>
      if should_refresh tm now then refresh_token tm now env k
      else { result := .ok tm, calls := [] }
  match step.result with
  | .error e => { result := .error e, tm := tm, calls := step.calls }
  | .ok tm2 =>
    match tm2.token_info with
    | none =>
        { result := .error (.authenticationError "no_token" "Failed to acquire token")
          tm := tm2, calls := step.calls }
    | some ti => { result := .ok ti.access_token, tm := tm2, calls := step.calls }

/-- `TokenManager.invalidate`: clear the cached token state. -/
def invalidate (tm : TokenManager) : TokenManager :=
  { tm with token_info := none }

/-- The empty python dict, as an `ApiBody` with no fields. -/
def emptyApiBody : ApiBody :=
  { error := none, message := none, error_description := none, retry_after := none }

/-- `APIClient._raise_for_status`: map an error status and parsed body to the
typed exception raised; a 401 additionally invalidates the token manager. -/
def raise_for_status (status : Nat) (data : ApiBody) (tm : TokenManager) :
    TokenManager × SDKError :=
  let error := data.error.getD "unknown_error"
  let message := data.message.getD (data.error_description.getD "Unknown error")
  if status = 401 then (invalidate tm, .authenticationError error message)
  else if status = 403 then (tm, .forbiddenError error message)
  else if status = 404 then (tm, .notFoundError error message)
  else if status = 400 then (tm, .validationError error message data)
  else if status = 429 then (tm, .rateLimitError error message data.retry_after)
  else if 500 ≤ status then (tm, .serverError error message status)
  else (tm, .apiError error message status)

/-- `APIClient._handle_response`: 204 yields an empty dict; an unparseable body
is replaced by a synthesized dict; status >= 400 raises via
`_raise_for_status`; otherwise the (possibly synthesized) dict is returned. -/
def handle_response (resp : ApiResponse) (tm : TokenManager) :
    TokenManager × Except SDKError ApiBody :=
  if resp.status_code = 204 then (tm, .ok emptyApiBody)
  else
    let data :=
      match resp.body with
      | some d => d
      | none =>
          { error := some "invalid_response", message := some resp.text
            error_description := none, retry_after := none }
    if 400 ≤ resp.status_code then
      let p := raise_for_status resp.status_code data tm
      (p.1, .error p.2)
    else (tm, .ok data)

/-- `true` iff the `Except` value is a success. -/
def sdkIsOk {α : Type} (e : Except SDKError α) : Bool :=
  match e with
  | .ok _ => true
  | .error _ => false

/-- A request sent to a generic API endpoint. -/
structure ApiRequest where
  method : String
  path : String
deriving DecidableEq

/-- Result of `APIClient.request`: the payload (or raised error), the manager
state afterwards, the token-endpoint calls made, and the API requests sent. -/
structure RequestOut where
  result : Except SDKError ApiBody
  tm : TokenManager
  tokenCalls : List TokenRequest
  apiCalls : List ApiRequest

/-- `APIClient.request` on the authenticated path: obtain a token (failures
propagate as-is, with no API request sent), send the request, and classify the
response with `_handle_response`.  The server's response to the one request is
the parameter `resp`. -/
def client_request (tm : TokenManager) (now : Int) (env : Env) (k : Nat)
    (method path : String) (resp : ApiResponse) : RequestOut :=
  let g := get_access_token tm now env k
  match g.result with
  | .error e => { result := .error e, tm := g.tm, tokenCalls := g.calls, apiCalls := [] }
  | .ok _ =>
    let p := handle_response resp g.tm
    { result := p.2, tm := p.1, tokenCalls := g.calls
      apiCalls := [{ method := method, path := path }] }

/-- `Agent.post` restricted to the text path (no media files): the
content-length check from agent.py lines 154-158, then the delegated
`APIClient.post` on `Endpoints.POSTS`. -/
def agent_post (tm : TokenManager) (now : Int) (env : Env) (k : Nat)
    (resp : ApiResponse) (content : String) : RequestOut :=
  if MAX_POST_LENGTH < content.length then
    { result := .error (.validationError "validation_error"
        ("Content exceeds " ++ toString MAX_POST_LENGTH ++ " characters") emptyApiBody)
      tm := tm, tokenCalls := [], apiCalls := [] }
  else
    client_request tm now env k "POST" "/api/posts" resp

/-! ### Concrete fixtures for witnesses -/

/-- A well-formed 200 token-endpoint body, the spec's acquisition scenario. -/
def sampleBody : TokenBody :=
  { access_token := some "tok1", refresh_token := some "ref1"
    expires_in := some 3600, scope := some "read write"
    error := none, error_description := none, message := none }

/-- An environment always answering 200 with `sampleBody`. -/
def sampleEnv : Env :=
  { resp := fun _ => { status_code := 200, body := some sampleBody, text := "" } }

/-- A fresh manager with no cached token. -/
def mgr0 : TokenManager :=
  { client_id := "id", client_secret := "sec", auto_refresh := true
    token_info := none }

/-- A token far from expiry. -/
def sampleToken : TokenInfo :=
  { access_token := "tok", refresh_token := "ref", expires_at := 1000000
    scope := "read write" }

/-- A manager holding `sampleToken`. -/
def mgr1 : TokenManager := { mgr0 with token_info := some sampleToken }

/-- A long-expired token with a refresh token. -/
def expiredToken : TokenInfo :=
  { access_token := "old", refresh_token := "ref", expires_at := 100
    scope := "read write" }

/-- A manager holding `expiredToken`. -/
def mgrExp : TokenManager := { mgr0 with token_info := some expiredToken }

/-- An environment whose first response fails (500) and whose later responses
succeed with `sampleBody`. -/
def fallbackEnv : Env :=
  { resp := fun i =>
      if i = 0 then { status_code := 500, body := none, text := "bad refresh" }
      else { status_code := 200, body := some sampleBody, text := "" } }

/-- A structured OAuth error body from the token endpoint. -/
def errBody : TokenBody :=
  { access_token := none, refresh_token := none, expires_in := none
    scope := none, error := some "invalid_client"
    error_description := some "Bad credentials", message := none }

/-- The spec's 404 scenario body. -/
def notFoundBody : ApiBody :=
  { error := some "not_found", message := some "Post not found"
    error_description := none, retry_after := none }

/-- A 404 API response carrying `notFoundBody`. -/
def resp404 : ApiResponse :=
  { status_code := 404, body := some notFoundBody, text := "" }

/-- A 401 API response carrying `notFoundBody`-shaped fields. -/
def resp401 : ApiResponse :=
  { status_code := 401
    body := some { error := some "token_expired", message := some "Token expired"
                   error_description := none, retry_after := none }
    text := "" }

/-- A 200 API response whose body does not parse as JSON. -/
def badSuccessResp : ApiResponse :=
  { status_code := 200, body := none, text := "not json" }

/-! ### Helper lemmas -/

/-- `_acquire_token` makes exactly one token-endpoint call, the
client-credentials grant. -/
theorem acquire_token_calls (tm : TokenManager) (now : Int) (env : Env) (k : Nat) :
    (acquire_token tm now env k).calls =
      [TokenRequest.clientCredentials tm.client_id tm.client_secret] := by
  unfold acquire_token
  cases h : handle_token_response (env.resp k) now <;> simp

/-- The state produced by `_acquire_token` is the parse of the k-th response. -/
theorem acquire_token_result (tm : TokenManager) (now : Int) (env : Env) (k : Nat) :
    (acquire_token tm now env k).result =
      (handle_token_response (env.resp k) now).map
        (fun ti => { tm with token_info := some ti }) := by
  unfold acquire_token
  cases h : handle_token_response (env.resp k) now <;> simp [h, Except.map]

/-- A successful `_acquire_token` leaves a cached token. -/
theorem acquire_token_ok_some (tm : TokenManager) (now : Int) (env : Env) (k : Nat)
    (tm2 : TokenManager) (h : (acquire_token tm now env k).result = .ok tm2) :
    ∃ ti, tm2.token_info = some ti := by
  rw [acquire_token_result] at h
  cases h2 : handle_token_response (env.resp k) now <;> rw [h2] at h <;>
    simp [Except.map] at h
  exact ⟨_, by rw [← h]⟩

/-- A successful `_refresh_token` leaves a cached token. -/
theorem refresh_token_ok_some (tm : TokenManager) (now : Int) (env : Env) (k : Nat)
    (tm2 : TokenManager) (h : (refresh_token tm now env k).result = .ok tm2) :
    ∃ ti, tm2.token_info = some ti := by
  unfold refresh_token at h
  cases htm : tm.token_info with
  | none =>
    rw [htm] at h
    exact acquire_token_ok_some tm now env k tm2 h
  | some ti =>
    rw [htm] at h
    by_cases he : ti.refresh_token = "" <;> simp [he] at h
    · exact acquire_token_ok_some tm now env k tm2 h
    · by_cases hs : (env.resp k).status_code = 200 <;> simp [hs] at h
      · cases h2 : handle_token_response (env.resp k) now <;> rw [h2] at h <;>
          simp at h
        exact ⟨_, by rw [← h]⟩
      · exact acquire_token_ok_some tm now env (k + 1) tm2 h

/-- A 200 token response with the mandatory fields parses into the full new
`TokenInfo`, with `expires_at = now + expires_in`. -/
theorem handle_token_response_200 (resp : HttpResponse) (body : TokenBody)
    (now : Int) (ein : Int) (tok : String)
    (h200 : resp.status_code = 200) (hb : resp.body = some body)
    (he : body.expires_in = some ein) (ha : body.access_token = some tok) :
    handle_token_response resp now =
      .ok { access_token := tok, refresh_token := body.refresh_token.getD ""
            expires_at := now + ein, scope := body.scope.getD "read write" } := by
  unfold handle_token_response
  simp [h200, hb, he, ha]

/-- A non-200 token response raises `AuthenticationError` with fields read
from the body, or synthesized from the raw text when the body is unparseable. -/
theorem handle_token_response_non200 (resp : HttpResponse) (now : Int)
    (h : resp.status_code ≠ 200) :
    handle_token_response resp now =
      .error (.authenticationError
        (match resp.body with
         | some d => d.error.getD "unknown_error"
         | none => "invalid_response")
        (match resp.body with
         | some d => d.error_description.getD (d.message.getD "Authentication failed")
         | none => if resp.text = "" then "Authentication failed" else resp.text)) := by
  unfold handle_token_response
  rw [if_pos h]
  cases resp.body <;> rfl

/-- `get_access_token` on a manager without a cached token: one
client-credentials call, whose parse decides the outcome and the new state. -/
theorem get_access_token_no_token (tm : TokenManager) (now : Int) (env : Env)
    (k : Nat) (htm : tm.token_info = none) :
    (get_access_token tm now env k).calls =
        [TokenRequest.clientCredentials tm.client_id tm.client_secret] ∧
    (get_access_token tm now env k).result =
        (handle_token_response (env.resp k) now).map TokenInfo.access_token ∧
    (get_access_token tm now env k).tm =
        ((handle_token_response (env.resp k) now).map
          (fun ti => { tm with token_info := some ti })).toOption.getD tm := by
  unfold get_access_token acquire_token
  rw [htm]
  dsimp only
  cases h2 : handle_token_response (env.resp k) now <;>
    simp [Except.map, Except.toOption]

/-- `get_access_token` on a manager with a cached token that does not need
refresh: no HTTP call, the cached access token returned, state unchanged. -/
theorem get_access_token_cached (tm : TokenManager) (now : Int) (env : Env)
    (k : Nat) (ti : TokenInfo) (htm : tm.token_info = some ti)
    (hsr : should_refresh tm now = false) :
    get_access_token tm now env k =
      { result := .ok ti.access_token, tm := tm, calls := [] } := by
  unfold get_access_token
  rw [htm]
  dsimp only
  rw [if_neg (by simp [hsr])]
  simp [htm]

/-- `get_access_token` on a manager whose token needs refresh delegates to
`_refresh_token`; an error leaves the state unchanged, a success returns the
new state's access token. -/
theorem get_access_token_refresh_due (tm : TokenManager) (now : Int) (env : Env)
    (k : Nat) (ti : TokenInfo) (htm : tm.token_info = some ti)
    (hsr : should_refresh tm now = true) :
    (get_access_token tm now env k).calls = (refresh_token tm now env k).calls ∧
    (∀ e, (refresh_token tm now env k).result = .error e →
      (get_access_token tm now env k).result = .error e ∧
      (get_access_token tm now env k).tm = tm) ∧
    (∀ tm2 ti2, (refresh_token tm now env k).result = .ok tm2 →
      tm2.token_info = some ti2 →
      (get_access_token tm now env k).result = .ok ti2.access_token ∧
      (get_access_token tm now env k).tm = tm2) := by
  unfold get_access_token
  rw [htm]
  dsimp only
  rw [if_pos hsr]
  refine ⟨?_, ?_, ?_⟩
  · cases hr : (refresh_token tm now env k).result with
    | error e => rfl
    | ok tm2 => cases htk : tm2.token_info <;> simp [htk]
  · intro e hr
    rw [hr]
    exact ⟨rfl, rfl⟩
  · intro tm2 ti2 hr hti2
    rw [hr]
    simp [hti2]

/-- `_refresh_token` with an empty refresh token falls straight through to
`_acquire_token`. -/
theorem refresh_token_no_rt (tm : TokenManager) (now : Int) (env : Env)
    (k : Nat) (ti : TokenInfo) (htm : tm.token_info = some ti)
    (he : ti.refresh_token = "") :
    refresh_token tm now env k = acquire_token tm now env k := by
  unfold refresh_token
  rw [htm]
  dsimp only
  rw [if_pos he]

/-- `_refresh_token` whose refresh POST gets a non-200 status makes the
refresh call and then exactly one fallback client-credentials call, whose
outcome is the whole outcome. -/
theorem refresh_token_fallback (tm : TokenManager) (now : Int) (env : Env)
    (k : Nat) (ti : TokenInfo) (htm : tm.token_info = some ti)
    (he : ti.refresh_token ≠ "") (hs : (env.resp k).status_code ≠ 200) :
    (refresh_token tm now env k).calls =
      [TokenRequest.refreshGrant ti.refresh_token,
       TokenRequest.clientCredentials tm.client_id tm.client_secret] ∧
    (refresh_token tm now env k).result = (acquire_token tm now env (k + 1)).result := by
  unfold refresh_token
  rw [htm]
  dsimp only
  rw [if_neg he, if_pos hs]
  exact ⟨by rw [acquire_token_calls], rfl⟩

/-- With a cached token, `_should_refresh` is true exactly when auto-refresh
is on and now is at or past `expires_at - REFRESH_BUFFER`. -/
theorem should_refresh_iff (tm : TokenManager) (now : Int) (ti : TokenInfo)
    (htm : tm.token_info = some ti) :
    should_refresh tm now = true ↔
      (tm.auto_refresh = true ∧ ti.expires_at - REFRESH_BUFFER ≤ now) := by
  unfold should_refresh
  rw [htm]
  cases hauto : tm.auto_refresh <;> simp [hauto]

/-- A cached token strictly before the buffered deadline is never refreshed. -/
theorem should_refresh_not_due (tm : TokenManager) (now : Int) (ti : TokenInfo)
    (htm : tm.token_info = some ti)
    (h : ¬ (ti.expires_at - REFRESH_BUFFER ≤ now)) :
    should_refresh tm now = false := by
  unfold should_refresh
  rw [htm]
  cases hauto : tm.auto_refresh <;> simp [hauto, h]

/-- `_refresh_token` always makes at least one token-endpoint call. -/
theorem refresh_token_calls_ne_nil (tm : TokenManager) (now : Int) (env : Env)
    (k : Nat) : (refresh_token tm now env k).calls ≠ [] := by
  unfold refresh_token
  cases htm : tm.token_info with
  | none => rw [acquire_token_calls]; simp
  | some ti =>
    dsimp only
    by_cases he : ti.refresh_token = ""
    · rw [if_pos he, acquire_token_calls]; simp
    · rw [if_neg he]
      by_cases hs : (env.resp k).status_code ≠ 200
      · rw [if_pos hs]; simp
      · rw [if_neg hs]
        cases h2 : handle_token_response (env.resp k) now <;> simp

/-- When a due refresh bottoms out in `_acquire_token` on the j-th response,
`get_access_token`'s outcome and new state are decided by that response. -/
theorem get_refresh_due_acquire_outcome (tm : TokenManager) (now : Int)
    (env : Env) (k j : Nat) (ti : TokenInfo)
    (htm : tm.token_info = some ti) (hsr : should_refresh tm now = true)
    (hres : (refresh_token tm now env k).result = (acquire_token tm now env j).result) :
    (get_access_token tm now env k).result =
        (handle_token_response (env.resp j) now).map TokenInfo.access_token ∧
    (get_access_token tm now env k).tm =
        ((handle_token_response (env.resp j) now).map
          (fun t => { tm with token_info := some t })).toOption.getD tm := by
  obtain ⟨hc, herr, hok⟩ := get_access_token_refresh_due tm now env k ti htm hsr
  cases h2 : handle_token_response (env.resp j) now with
  | error e =>
    have hre : (refresh_token tm now env k).result = .error e := by
      rw [hres, acquire_token_result, h2]; rfl
    obtain ⟨h3, h4⟩ := herr e hre
    simp [h3, h4, Except.map, Except.toOption]
  | ok t =>
    have hre : (refresh_token tm now env k).result = .ok { tm with token_info := some t } := by
      rw [hres, acquire_token_result, h2]; rfl
    obtain ⟨h3, h4⟩ := hok _ t hre rfl
    simp [h3, h4, Except.map, Except.toOption]

/-- On a parseable body and status ≥ 400, `_handle_response` raises exactly
what `_raise_for_status` produces, with its state effect. -/
theorem handle_response_error (resp : ApiResponse) (tm : TokenManager)
    (d : ApiBody) (hb : resp.body = some d) (h4 : 400 ≤ resp.status_code) :
    handle_response resp tm =
      ((raise_for_status resp.status_code d tm).1,
       .error (raise_for_status resp.status_code d tm).2) := by
  unfold handle_response
  rw [hb]
  rw [if_neg (by omega : ¬ resp.status_code = 204)]
  dsimp only
  rw [if_pos h4]

/-! ### Claims -/

/-- C10: a `get_access_token()` call that raises leaves the cached token state
exactly as it was before the call: acquisition and refresh failures never
clear or partially update the state. -/
theorem C10_error_leaves_state_unchanged (tm : TokenManager) (now : Int)
    (env : Env) (k : Nat) (e : SDKError)
    (h : (get_access_token tm now env k).result = .error e) :
    (get_access_token tm now env k).tm = tm := by
  unfold get_access_token at h ⊢
  cases htm : tm.token_info with
  | none =>
    rw [htm] at h
    dsimp only at h ⊢
    cases hr : (acquire_token tm now env k).result with
    | error e2 => rfl
    | ok tm2 =>
      obtain ⟨ti, hti⟩ := acquire_token_ok_some tm now env k tm2 hr
      rw [hr] at h
      simp [hti] at h
  | some ti =>
    rw [htm] at h
    dsimp only at h ⊢
    by_cases hsr : should_refresh tm now = true
    · rw [if_pos hsr] at h ⊢
      cases hr : (refresh_token tm now env k).result with
      | error e2 => rfl
      | ok tm2 =>
        obtain ⟨ti2, hti2⟩ := refresh_token_ok_some tm now env k tm2 hr
        rw [hr] at h
        simp [hti2] at h
    · rw [if_neg hsr] at h
      simp [htm] at h

/-- C10 witness: a fresh manager whose acquisition gets a 500 response raises
and stays without a cached token. -/
theorem C10_witness :
    (get_access_token
        { client_id := "id", client_secret := "sec", auto_refresh := true,
          token_info := none } 0
        { resp := fun _ => { status_code := 500, body := none, text := "boom" } }
        0).result =
      .error (.authenticationError "invalid_response" "boom") ∧
    (get_access_token
        { client_id := "id", client_secret := "sec", auto_refresh := true,
          token_info := none } 0
        { resp := fun _ => { status_code := 500, body := none, text := "boom" } }
        0).tm =
      { client_id := "id", client_secret := "sec", auto_refresh := true,
        token_info := none } :=
  ⟨rfl, C10_error_leaves_state_unchanged _ 0 _ 0
    (.authenticationError "invalid_response" "boom") rfl⟩

/-- C1: with a cached token, `get_access_token()` performs a token-endpoint
call iff auto-refresh is on and now >= expires_at - 5min; otherwise the cached
access token is returned as-is (even if expired) and the state is untouched;
and on a fresh manager whose acquired token expires far in the future, two
sequential calls make exactly one token-endpoint call (one on the first call,
none on the second). -/
theorem C1_call_iff_refresh_due (tm tm0 : TokenManager) (ti ti1 : TokenInfo)
    (now now2 : Int) (env : Env) (k : Nat)
    (htm : tm.token_info = some ti)
    (h0 : tm0.token_info = none)
    (h1 : (get_access_token tm0 now env k).tm.token_info = some ti1)
    (h2 : ¬ (ti1.expires_at - REFRESH_BUFFER ≤ now2)) :
    ((get_access_token tm now env k).calls ≠ [] ↔
        (tm.auto_refresh = true ∧ ti.expires_at - REFRESH_BUFFER ≤ now)) ∧
    (¬ (tm.auto_refresh = true ∧ ti.expires_at - REFRESH_BUFFER ≤ now) →
        get_access_token tm now env k =
          { result := .ok ti.access_token, tm := tm, calls := [] }) ∧
    (get_access_token tm0 now env k).calls.length = 1 ∧
    (get_access_token (get_access_token tm0 now env k).tm now2 env (k + 1)).calls = [] := by
  refine ⟨?_, ?_, ?_, ?_⟩
  · rw [← should_refresh_iff tm now ti htm]
    by_cases hsr : should_refresh tm now = true
    · simp only [hsr, iff_true]
      rw [(get_access_token_refresh_due tm now env k ti htm hsr).1]
      exact refresh_token_calls_ne_nil tm now env k
    · have hc := get_access_token_cached tm now env k ti htm (by simpa using hsr)
      simp [hc, hsr]
  · intro hn
    have hsr : should_refresh tm now = false := by
      rw [← Bool.not_eq_true]
      intro hx
      exact hn ((should_refresh_iff tm now ti htm).mp hx)
    exact get_access_token_cached tm now env k ti htm hsr
  · rw [(get_access_token_no_token tm0 now env k h0).1]
    rfl
  · have hsr := should_refresh_not_due _ now2 ti1 h1 h2
    rw [get_access_token_cached _ now2 env (k + 1) ti1 h1 hsr]

/-- C1 witness: a manager with a token expiring at 1000000 checked at time 0
makes no call and returns the cached token; a fresh manager acquiring a
3600-second token at time 0 makes one call, and a second call at time 0 makes
none. -/
theorem C1_witness :
    ((get_access_token mgr1 0 sampleEnv 0).calls ≠ [] ↔
        (mgr1.auto_refresh = true ∧ sampleToken.expires_at - REFRESH_BUFFER ≤ 0)) ∧
    (¬ (mgr1.auto_refresh = true ∧ sampleToken.expires_at - REFRESH_BUFFER ≤ 0) →
        get_access_token mgr1 0 sampleEnv 0 =
          { result := .ok sampleToken.access_token, tm := mgr1, calls := [] }) ∧
    (get_access_token mgr0 0 sampleEnv 0).calls.length = 1 ∧
    (get_access_token (get_access_token mgr0 0 sampleEnv 0).tm 0 sampleEnv 1).calls = [] :=
  C1_call_iff_refresh_due mgr1 mgr0 sampleToken
    { access_token := "tok1", refresh_token := "ref1", expires_at := 3600
      scope := "read write" }
    0 0 sampleEnv 0 rfl rfl (by decide) (by decide)

/-- C2: when a refresh is due and either no refresh token is cached or the
refresh POST gets a non-2xx status, exactly one fallback client-credentials
call is made, its parsed result becomes the new cached token, and an error
propagates to the caller iff that fallback acquisition itself fails. -/
theorem C2_refresh_fallback (tm : TokenManager) (ti : TokenInfo) (now : Int)
    (env : Env) (k : Nat)
    (htm : tm.token_info = some ti) (hsr : should_refresh tm now = true) :
    (ti.refresh_token = "" →
      (get_access_token tm now env k).calls =
        [TokenRequest.clientCredentials tm.client_id tm.client_secret] ∧
      (get_access_token tm now env k).result =
        (handle_token_response (env.resp k) now).map TokenInfo.access_token ∧
      (get_access_token tm now env k).tm =
        ((handle_token_response (env.resp k) now).map
          (fun t => { tm with token_info := some t })).toOption.getD tm) ∧
    (ti.refresh_token ≠ "" →
      ¬ (200 ≤ (env.resp k).status_code ∧ (env.resp k).status_code < 300) →
      (get_access_token tm now env k).calls =
        [TokenRequest.refreshGrant ti.refresh_token,
         TokenRequest.clientCredentials tm.client_id tm.client_secret] ∧
      (get_access_token tm now env k).result =
        (handle_token_response (env.resp (k + 1)) now).map TokenInfo.access_token ∧
      (get_access_token tm now env k).tm =
        ((handle_token_response (env.resp (k + 1)) now).map
          (fun t => { tm with token_info := some t })).toOption.getD tm) := by
  constructor
  · intro he
    have heq := refresh_token_no_rt tm now env k ti htm he
    have hc := (get_access_token_refresh_due tm now env k ti htm hsr).1
    refine ⟨?_, ?_, ?_⟩
    · rw [hc, heq, acquire_token_calls]
    · exact (get_refresh_due_acquire_outcome tm now env k k ti htm hsr (by rw [heq])).1
    · exact (get_refresh_due_acquire_outcome tm now env k k ti htm hsr (by rw [heq])).2
  · intro he hs
    have hs200 : (env.resp k).status_code ≠ 200 := by
      intro hx
      exact hs ⟨by omega, by omega⟩
    obtain ⟨hcalls, hres⟩ := refresh_token_fallback tm now env k ti htm he hs200
    have hc := (get_access_token_refresh_due tm now env k ti htm hsr).1
    refine ⟨?_, ?_, ?_⟩
    · rw [hc, hcalls]
    · exact (get_refresh_due_acquire_outcome tm now env k (k + 1) ti htm hsr hres).1
    · exact (get_refresh_due_acquire_outcome tm now env k (k + 1) ti htm hsr hres).2

/-- C2 witness: an expired token whose refresh gets a 500 triggers exactly one
fallback client-credentials call; the fallback's 200 response becomes the new
cached token and no error propagates. -/
theorem C2_witness :
    (expiredToken.refresh_token = "" →
      (get_access_token mgrExp 10000 fallbackEnv 0).calls =
        [TokenRequest.clientCredentials mgrExp.client_id mgrExp.client_secret] ∧
      (get_access_token mgrExp 10000 fallbackEnv 0).result =
        (handle_token_response (fallbackEnv.resp 0) 10000).map TokenInfo.access_token ∧
      (get_access_token mgrExp 10000 fallbackEnv 0).tm =
        ((handle_token_response (fallbackEnv.resp 0) 10000).map
          (fun t => { mgrExp with token_info := some t })).toOption.getD mgrExp) ∧
    (expiredToken.refresh_token ≠ "" →
      ¬ (200 ≤ (fallbackEnv.resp 0).status_code ∧ (fallbackEnv.resp 0).status_code < 300) →
      (get_access_token mgrExp 10000 fallbackEnv 0).calls =
        [TokenRequest.refreshGrant expiredToken.refresh_token,
         TokenRequest.clientCredentials mgrExp.client_id mgrExp.client_secret] ∧
      (get_access_token mgrExp 10000 fallbackEnv 0).result =
        (handle_token_response (fallbackEnv.resp 1) 10000).map TokenInfo.access_token ∧
      (get_access_token mgrExp 10000 fallbackEnv 0).tm =
        ((handle_token_response (fallbackEnv.resp 1) 10000).map
          (fun t => { mgrExp with token_info := some t })).toOption.getD mgrExp) :=
  C2_refresh_fallback mgrExp expiredToken 10000 fallbackEnv 0 rfl (by decide)

/-- C6: a successful token response replaces the cached TokenState wholesale,
with `expires_at` = issue time + `expires_in`; with `expires_in = 3600` the
token is treated as valid until T0+3600 and a refresh is first attempted at or
after T0+3300. -/
theorem C6_expires_at_derivation (resp : HttpResponse) (body : TokenBody)
    (ein : Int) (tok : String) (now now2 : Int) (tm : TokenManager)
    (env : Env) (k : Nat)
    (h200 : resp.status_code = 200) (hb : resp.body = some body)
    (he : body.expires_in = some ein) (ha : body.access_token = some tok)
    (hauto : tm.auto_refresh = true) (henv : env.resp k = resp) :
    handle_token_response resp now =
      .ok { access_token := tok, refresh_token := body.refresh_token.getD ""
            expires_at := now + ein, scope := body.scope.getD "read write" } ∧
    (acquire_token tm now env k).result =
      .ok { tm with
            token_info := some
              { access_token := tok, refresh_token := body.refresh_token.getD ""
                expires_at := now + ein, scope := body.scope.getD "read write" } } ∧
    (should_refresh
        { tm with
          token_info := some
            { access_token := tok, refresh_token := body.refresh_token.getD ""
              expires_at := now + ein, scope := body.scope.getD "read write" } }
        now2 = true ↔
      now + ein - REFRESH_BUFFER ≤ now2) ∧
    (ein = 3600 →
      (should_refresh
          { tm with
            token_info := some
              { access_token := tok, refresh_token := body.refresh_token.getD ""
                expires_at := now + ein, scope := body.scope.getD "read write" } }
          now2 = true ↔
        now + 3300 ≤ now2)) := by
  have h1 := handle_token_response_200 resp body now ein tok h200 hb he ha
  have h2 : (acquire_token tm now env k).result =
      .ok { tm with
            token_info := some
              { access_token := tok, refresh_token := body.refresh_token.getD ""
                expires_at := now + ein, scope := body.scope.getD "read write" } } := by
    rw [acquire_token_result, henv, h1]
    rfl
  have h3 := should_refresh_iff
    { tm with
      token_info := some
        { access_token := tok, refresh_token := body.refresh_token.getD ""
          expires_at := now + ein, scope := body.scope.getD "read write" } }
    now2 _ rfl
  refine ⟨h1, h2, ?_, ?_⟩
  · rw [h3]
    simp [hauto]
  · intro hein
    subst hein
    rw [h3]
    simp only [hauto, true_and, REFRESH_BUFFER]
    constructor <;> intro hx <;> omega

/-- C6 witness: the spec's acquisition scenario, 3600-second token issued at
time 0 against a fresh manager. -/
theorem C6_witness :
    handle_token_response (sampleEnv.resp 0) 0 =
      .ok { access_token := "tok1", refresh_token := sampleBody.refresh_token.getD ""
            expires_at := 0 + 3600, scope := sampleBody.scope.getD "read write" } ∧
    (acquire_token mgr0 0 sampleEnv 0).result =
      .ok { mgr0 with
            token_info := some
              { access_token := "tok1", refresh_token := sampleBody.refresh_token.getD ""
                expires_at := 0 + 3600, scope := sampleBody.scope.getD "read write" } } ∧
    (should_refresh
        { mgr0 with
          token_info := some
            { access_token := "tok1", refresh_token := sampleBody.refresh_token.getD ""
              expires_at := 0 + 3600, scope := sampleBody.scope.getD "read write" } }
        5000 = true ↔
      0 + 3600 - REFRESH_BUFFER ≤ 5000) ∧
    ((3600 : Int) = 3600 →
      (should_refresh
          { mgr0 with
            token_info := some
              { access_token := "tok1", refresh_token := sampleBody.refresh_token.getD ""
                expires_at := 0 + 3600, scope := sampleBody.scope.getD "read write" } }
          5000 = true ↔
        (0 : Int) + 3300 ≤ 5000)) :=
  C6_expires_at_derivation (sampleEnv.resp 0) sampleBody 3600 "tok1" 0 5000 mgr0
    sampleEnv 0 rfl rfl rfl rfl rfl rfl

/-- C7 counterexample: a 500 token response with an unparseable body and an
EMPTY raw text is reported with description "Authentication failed", not the
raw body text (which is the empty string). -/
theorem C7_counterexample :
    handle_token_response { status_code := 500, body := none, text := "" } 0 =
      .error (.authenticationError "invalid_response" "Authentication failed") ∧
    ¬ handle_token_response { status_code := 500, body := none, text := "" } 0 =
      .error (.authenticationError "invalid_response" "") := by
  constructor
  · rfl
  · intro h
    rw [handle_token_response] at h
    simp at h

/-- C7 (amended): every non-2xx token-endpoint response raises
AuthenticationFailure with error_code/description read from the body's
error and error_description (or message) fields when the body parses
(defaulting when absent), and otherwise synthesized as invalid_response with
the raw body text when that text is nonempty, else "Authentication failed". -/
theorem C7_non2xx_auth_failure (resp : HttpResponse) (now : Int)
    (h : ¬ (200 ≤ resp.status_code ∧ resp.status_code < 300)) :
    handle_token_response resp now =
      .error (.authenticationError
        (match resp.body with
         | some d => d.error.getD "unknown_error"
         | none => "invalid_response")
        (match resp.body with
         | some d => d.error_description.getD (d.message.getD "Authentication failed")
         | none => if resp.text = "" then "Authentication failed" else resp.text)) := by
  apply handle_token_response_non200
  intro hx
  rw [hx] at h
  exact h (by omega)

/-- C7 witness: a 400 token response with a structured OAuth error body. -/
theorem C7_witness :
    handle_token_response { status_code := 400, body := some errBody, text := "x" } 0 =
      .error (.authenticationError
        (match ({ status_code := 400, body := some errBody, text := "x" } : HttpResponse).body with
         | some d => d.error.getD "unknown_error"
         | none => "invalid_response")
        (match ({ status_code := 400, body := some errBody, text := "x" } : HttpResponse).body with
         | some d => d.error_description.getD (d.message.getD "Authentication failed")
         | none =>
             if ({ status_code := 400, body := some errBody, text := "x" } : HttpResponse).text = ""
             then "Authentication failed"
             else ({ status_code := 400, body := some errBody, text := "x" } : HttpResponse).text)) :=
  C7_non2xx_auth_failure { status_code := 400, body := some errBody, text := "x" } 0
    (by decide)

/-- C5: a 401 response makes the executor invalidate the token manager's
cached token and raise AuthenticationFailure, so that the next
`get_access_token()` call performs a fresh client-credentials acquisition. -/
theorem C5_401_invalidates (resp : ApiResponse) (tm : TokenManager)
    (d : ApiBody) (now : Int) (env : Env) (k : Nat)
    (hb : resp.body = some d) (h401 : resp.status_code = 401) :
    (handle_response resp tm).1.token_info = none ∧
    (handle_response resp tm).2 =
      .error (.authenticationError (d.error.getD "unknown_error")
        (d.message.getD (d.error_description.getD "Unknown error"))) ∧
    (get_access_token (handle_response resp tm).1 now env k).calls =
      [TokenRequest.clientCredentials tm.client_id tm.client_secret] := by
  have hh := handle_response_error resp tm d hb (by omega)
  have hrs : raise_for_status resp.status_code d tm =
      (invalidate tm, .authenticationError (d.error.getD "unknown_error")
        (d.message.getD (d.error_description.getD "Unknown error"))) := by
    unfold raise_for_status
    rw [h401]
    rfl
  rw [hrs] at hh
  refine ⟨by rw [hh]; rfl, by rw [hh], ?_⟩
  have hnone : (handle_response resp tm).1.token_info = none := by rw [hh]; rfl
  rw [(get_access_token_no_token (handle_response resp tm).1 now env k hnone).1]
  rw [hh]
  rfl

/-- C5 witness: a concrete 401 response clears the cached token of a manager
holding a valid token, reports the body's fields, and the next call issues one
client-credentials acquisition. -/
theorem C5_witness :
    (handle_response resp401 mgr1).1.token_info = none ∧
    (handle_response resp401 mgr1).2 =
      .error (.authenticationError "token_expired" "Token expired") ∧
    (get_access_token (handle_response resp401 mgr1).1 0 sampleEnv 0).calls =
      [TokenRequest.clientCredentials mgr1.client_id mgr1.client_secret] :=
  C5_401_invalidates resp401 mgr1
    { error := some "token_expired", message := some "Token expired"
      error_description := none, retry_after := none }
    0 sampleEnv 0 rfl rfl

/-- C8: every status >= 400 raises exactly the typed error of the fixed
taxonomy for its status class, carrying error_code from the body's error field
and message from its message field (falling back to error_description), with
the extra data the taxonomy prescribes. -/
theorem C8_error_taxonomy (resp : ApiResponse) (tm : TokenManager) (d : ApiBody)
    (hb : resp.body = some d) (h4 : 400 ≤ resp.status_code) :
    (resp.status_code = 400 →
      (handle_response resp tm).2 =
        .error (.validationError (d.error.getD "unknown_error")
          (d.message.getD (d.error_description.getD "Unknown error")) d)) ∧
    (resp.status_code = 401 →
      (handle_response resp tm).2 =
        .error (.authenticationError (d.error.getD "unknown_error")
          (d.message.getD (d.error_description.getD "Unknown error")))) ∧
    (resp.status_code = 403 →
      (handle_response resp tm).2 =
        .error (.forbiddenError (d.error.getD "unknown_error")
          (d.message.getD (d.error_description.getD "Unknown error")))) ∧
    (resp.status_code = 404 →
      (handle_response resp tm).2 =
        .error (.notFoundError (d.error.getD "unknown_error")
          (d.message.getD (d.error_description.getD "Unknown error")))) ∧
    (resp.status_code = 429 →
      (handle_response resp tm).2 =
        .error (.rateLimitError (d.error.getD "unknown_error")
          (d.message.getD (d.error_description.getD "Unknown error")) d.retry_after)) ∧
    (500 ≤ resp.status_code →
      (handle_response resp tm).2 =
        .error (.serverError (d.error.getD "unknown_error")
          (d.message.getD (d.error_description.getD "Unknown error")) resp.status_code)) ∧
    (resp.status_code ≠ 400 → resp.status_code ≠ 401 → resp.status_code ≠ 403 →
      resp.status_code ≠ 404 → resp.status_code ≠ 429 → resp.status_code < 500 →
      (handle_response resp tm).2 =
        .error (.apiError (d.error.getD "unknown_error")
          (d.message.getD (d.error_description.getD "Unknown error")) resp.status_code)) := by
  have hh := handle_response_error resp tm d hb h4
  refine ⟨?_, ?_, ?_, ?_, ?_, ?_, ?_⟩
  · intro h
    rw [hh]
    unfold raise_for_status
    rw [h]
    rfl
  · intro h
    rw [hh]
    unfold raise_for_status
    rw [h]
    rfl
  · intro h
    rw [hh]
    unfold raise_for_status
    rw [h]
    rfl
  · intro h
    rw [hh]
    unfold raise_for_status
    rw [h]
    rfl
  · intro h
    rw [hh]
    unfold raise_for_status
    rw [h]
    rfl
  · intro h
    rw [hh]
    unfold raise_for_status
    rw [if_neg (by omega), if_neg (by omega), if_neg (by omega), if_neg (by omega),
        if_neg (by omega), if_pos h]
  · intro h400 h401 h403 h404 h429 h500
    rw [hh]
    unfold raise_for_status
    rw [if_neg h401, if_neg h403, if_neg h404, if_neg h400, if_neg h429,
        if_neg (by omega)]

/-- C8 witness: the spec's 404 scenario body surfaces as NotFoundFailure with
matching fields. -/
theorem C8_witness :
    (resp404.status_code = 400 →
      (handle_response resp404 mgr1).2 =
        .error (.validationError (notFoundBody.error.getD "unknown_error")
          (notFoundBody.message.getD (notFoundBody.error_description.getD "Unknown error"))
          notFoundBody)) ∧
    (resp404.status_code = 401 →
      (handle_response resp404 mgr1).2 =
        .error (.authenticationError (notFoundBody.error.getD "unknown_error")
          (notFoundBody.message.getD (notFoundBody.error_description.getD "Unknown error")))) ∧
    (resp404.status_code = 403 →
      (handle_response resp404 mgr1).2 =
        .error (.forbiddenError (notFoundBody.error.getD "unknown_error")
          (notFoundBody.message.getD (notFoundBody.error_description.getD "Unknown error")))) ∧
    (resp404.status_code = 404 →
      (handle_response resp404 mgr1).2 =
        .error (.notFoundError (notFoundBody.error.getD "unknown_error")
          (notFoundBody.message.getD (notFoundBody.error_description.getD "Unknown error")))) ∧
    (resp404.status_code = 429 →
      (handle_response resp404 mgr1).2 =
        .error (.rateLimitError (notFoundBody.error.getD "unknown_error")
          (notFoundBody.message.getD (notFoundBody.error_description.getD "Unknown error"))
          notFoundBody.retry_after)) ∧
    (500 ≤ resp404.status_code →
      (handle_response resp404 mgr1).2 =
        .error (.serverError (notFoundBody.error.getD "unknown_error")
          (notFoundBody.message.getD (notFoundBody.error_description.getD "Unknown error"))
          resp404.status_code)) ∧
    (resp404.status_code ≠ 400 → resp404.status_code ≠ 401 → resp404.status_code ≠ 403 →
      resp404.status_code ≠ 404 → resp404.status_code ≠ 429 → resp404.status_code < 500 →
      (handle_response resp404 mgr1).2 =
        .error (.apiError (notFoundBody.error.getD "unknown_error")
          (notFoundBody.message.getD (notFoundBody.error_description.getD "Unknown error"))
          resp404.status_code)) :=
  C8_error_taxonomy resp404 mgr1 notFoundBody rfl (by decide)

/-- C3 counterexample: a 200 response whose body does not parse is returned as
a SUCCESSFUL synthesized payload by `_handle_response`; no API error is
propagated, contrary to the claim. -/
theorem C3_counterexample :
    (handle_response badSuccessResp mgr1).2 =
      .ok { error := some "invalid_response", message := some "not json"
            error_description := none, retry_after := none } ∧
    sdkIsOk (handle_response badSuccessResp mgr1).2 = true :=
  ⟨rfl, rfl⟩

/-- C3 (amended): for every response with status < 400 (other than 204) whose
body cannot be parsed, `_handle_response` raises nothing and returns the
synthesized dict with error "invalid_response" and the raw text as message,
as a successful payload, leaving the token manager untouched. -/
theorem C3_malformed_success_payload (resp : ApiResponse) (tm : TokenManager)
    (h204 : resp.status_code ≠ 204) (hlt : resp.status_code < 400)
    (hb : resp.body = none) :
    handle_response resp tm =
      (tm, .ok { error := some "invalid_response", message := some resp.text
                 error_description := none, retry_after := none }) := by
  unfold handle_response
  rw [hb, if_neg h204]
  dsimp only
  rw [if_neg (by omega)]

/-- C3 witness: the concrete malformed 200 response yields the synthesized
payload as a success. -/
theorem C3_witness :
    handle_response badSuccessResp mgr1 =
      (mgr1, .ok { error := some "invalid_response", message := some badSuccessResp.text
                   error_description := none, retry_after := none }) :=
  C3_malformed_success_payload badSuccessResp mgr1 (by decide) (by decide) rfl

/-- C9: posting content longer than 500 characters raises ValidationFailure
client-side, with no token-endpoint call and no API request made. -/
theorem C9_length_validated_before_network (tm : TokenManager) (now : Int)
    (env : Env) (k : Nat) (resp : ApiResponse) (content : String)
    (h : MAX_POST_LENGTH < content.length) :
    agent_post tm now env k resp content =
      { result := .error (.validationError "validation_error"
          "Content exceeds 500 characters" emptyApiBody)
        tm := tm, tokenCalls := [], apiCalls := [] } := by
  unfold agent_post
  rw [if_pos h]
  rfl

/-- C9 witness: a 501-character post is rejected client-side with no network
traffic. -/
theorem C9_witness :
    agent_post mgr1 0 sampleEnv 0 resp404 (String.mk (List.replicate 501 'a')) =
      { result := .error (.validationError "validation_error"
          "Content exceeds 500 characters" emptyApiBody)
        tm := mgr1, tokenCalls := [], apiCalls := [] } :=
  C9_length_validated_before_network mgr1 0 sampleEnv 0 resp404
    (String.mk (List.replicate 501 'a'))
    (by
      have hlen : (String.mk (List.replicate 501 'a')).length = 501 := by
        show (List.replicate 501 'a').length = 501
        rw [List.length_replicate]
      rw [hlen]
      decide)

end ImagineAnything
